import Mathlib

/-!
Shallow embedding of the configuration-resolution and bootstrap code of the
jrebel-license-server repository (src/config.py and src/app.py).

Python values flowing through the config module are modelled by `PyValue`;
`os.environ` is an abstract `Env`; the remote config collaborator
(`kenger_client.config.get`) is a function from keys to a result that either
raises or yields a value; `json.loads` is implemented as a genuine JSON
parser producing `PyValue`s (Python's json module also accepts `NaN`,
`Infinity` and `-Infinity`, which we reproduce); Python's `int(str)`
conversion is `pyInt`.  Functions that can raise return `Except`; a Python
`try/except` becomes an explicit match on that `Except`.
-/

/-- Python values as they occur in src/config.py: `None`, booleans, ints,
floats (kept as their literal text; only truthiness is ever consulted),
strings, lists and dicts (assoc lists, later key wins on duplicates). -/
inductive PyValue where
  | none : PyValue
  | bool : Bool → PyValue
  | int : Int → PyValue
  | float : String → PyValue
  | str : String → PyValue
  | list : List PyValue → PyValue
  | dict : List (String × PyValue) → PyValue
  deriving Repr, BEq

/-- A float literal denotes 0.0 iff its mantissa has at least one digit and
every mantissa digit is `0` (the exponent cannot make such a mantissa
nonzero).  Used only for Python truthiness of parsed JSON floats. -/
def isZeroFloatLit (lit : String) : Bool :=
  let core := (lit.toList.filter (fun c => c ≠ '-' ∧ c ≠ '+')).takeWhile
    (fun c => c ≠ 'e' ∧ c ≠ 'E')
  let digits := core.filter Char.isDigit
  !digits.isEmpty && digits.all (· = '0')

/-- Python truthiness (`if value:`) for the modelled values. -/
def PyValue.truthy : PyValue → Bool
  | .none => false
  | .bool b => b
  | .int n => n ≠ 0
  | .float lit => !isZeroFloatLit lit
  | .str s => !s.isEmpty
  | .list xs => !xs.isEmpty
  | .dict kvs => !kvs.isEmpty

/-- `os.environ` at process start: a partial map from variable names to
string values. -/
def Env : Type := String → Option String

/-- Python truthiness of `os.environ.get(k)`: set and non-empty. -/
def optStrTruthy : Option String → Bool
  | some s => !s.isEmpty
  | none => false

/-! ### JSON parsing (`json.loads`) -/

/-- JSON whitespace characters (Python json skips space, tab, LF, CR). -/
def isJsonWs (c : Char) : Bool :=
  c = ' ' || c = '\t' || c = '\n' || c = '\r'

/-- Drop leading JSON whitespace. -/
def skipWs : List Char → List Char
  | c :: rest => if isJsonWs c then skipWs rest else c :: rest
  | [] => []

/-- Decode one hex digit. -/
def hexDigit (c : Char) : Option Nat :=
  if '0' ≤ c ∧ c ≤ '9' then some (c.toNat - '0'.toNat)
  else if 'a' ≤ c ∧ c ≤ 'f' then some (c.toNat - 'a'.toNat + 10)
  else if 'A' ≤ c ∧ c ≤ 'F' then some (c.toNat - 'A'.toNat + 10)
  else Option.none

/-- Body of a JSON string, after the opening quote; handles the escape
sequences Python's json accepts and rejects raw control characters. -/
def parseStringBody : List Char → List Char → Option (String × List Char)
  | _, [] => Option.none
  | acc, '"' :: rest => some (String.mk acc.reverse, rest)
  | acc, '\x5c' :: e :: rest =>
    match e with
    | '"' => parseStringBody ('"' :: acc) rest
    | '\x5c' => parseStringBody ('\x5c' :: acc) rest
    | '/' => parseStringBody ('/' :: acc) rest
    | 'b' => parseStringBody ('\x08' :: acc) rest
    | 'f' => parseStringBody ('\x0c' :: acc) rest
    | 'n' => parseStringBody ('\n' :: acc) rest
    | 'r' => parseStringBody ('\r' :: acc) rest
    | 't' => parseStringBody ('\t' :: acc) rest
    | 'u' =>
      match rest with
      | h1 :: h2 :: h3 :: h4 :: rest' =>
        match hexDigit h1, hexDigit h2, hexDigit h3, hexDigit h4 with
        | some a, some b, some c, some d =>
          parseStringBody (Char.ofNat (((a * 16 + b) * 16 + c) * 16 + d) :: acc) rest'
        | _, _, _, _ => Option.none
      | _ => Option.none
    | _ => Option.none
  | acc, c :: rest =>
    if c.toNat < 0x20 then Option.none else parseStringBody (c :: acc) rest

/-- Longest prefix of decimal digits. -/
def takeDigits (cs : List Char) : List Char × List Char :=
  (cs.takeWhile Char.isDigit, cs.dropWhile Char.isDigit)

/-- Numeric value of a digit list. -/
def digitsToNat : List Char → Nat → Nat
  | [], acc => acc
  | c :: rest, acc => digitsToNat rest (acc * 10 + (c.toNat - '0'.toNat))

/-- JSON number (plus Python json's `NaN`/`Infinity`/`-Infinity` extensions).
Pure-integer literals become `PyValue.int`; literals with a fraction or
exponent become `PyValue.float` carrying their text.  A malformed tail
(`1.` or `1e`) is left unconsumed, so the caller fails on the leftover,
matching Python's parse failure. -/
def parseNumber (cs : List Char) : Option (PyValue × List Char) :=
  match cs with
  | 'N' :: 'a' :: 'N' :: rest => some (.float "NaN", rest)
  | 'I' :: 'n' :: 'f' :: 'i' :: 'n' :: 'i' :: 't' :: 'y' :: rest =>
    some (.float "Infinity", rest)
  | '-' :: 'I' :: 'n' :: 'f' :: 'i' :: 'n' :: 'i' :: 't' :: 'y' :: rest =>
    some (.float "-Infinity", rest)
  | _ =>
    let (neg, cs1) := match cs with
      | '-' :: r => (true, r)
      | _ => (false, cs)
    let intPart : Option (List Char × List Char) :=
      match cs1 with
      | '0' :: rest => some (['0'], rest)
      | c :: _ =>
        if c.isDigit then
          let (ds, rest) := takeDigits cs1
          some (ds, rest)
        else Option.none
      | [] => Option.none
    match intPart with
    | Option.none => Option.none
    | some (ds, rest) =>
      let (fracDs, rest1) : List Char × List Char :=
        match rest with
        | '.' :: r =>
          let (fs, r') := takeDigits r
          if fs.isEmpty then ([], rest) else (fs, r')
        | _ => ([], rest)
      let hasFrac := !fracDs.isEmpty
      let (expDs, rest2) : List Char × List Char :=
        match rest1 with
        | e :: r =>
          if e = 'e' ∨ e = 'E' then
            let (sgn, r1) : List Char × List Char :=
              match r with
              | s :: r' => if s = '+' ∨ s = '-' then ([s], r') else ([], r)
              | [] => ([], r)
            let (es, r2) := takeDigits r1
            if es.isEmpty then ([], rest1) else (e :: (sgn ++ es), r2)
          else ([], rest1)
        | [] => ([], rest1)
      let hasExp := !expDs.isEmpty
      if hasFrac || hasExp then
        let lit := String.mk ((if neg then ['-'] else []) ++ ds ++
          (if hasFrac then '.' :: fracDs else []) ++ expDs)
        some (.float lit, rest2)
      else
        let n : Int := Int.ofNat (digitsToNat ds 0)
        some (.int (if neg then -n else n), rest)

/-- Insert into an assoc list with Python dict semantics: an existing key is
overwritten in place, a new key is appended. -/
def dictInsert (kvs : List (String × PyValue)) (k : String) (v : PyValue) :
    List (String × PyValue) :=
  match kvs with
  | [] => [(k, v)]
  | (k', v') :: rest =>
    if k' = k then (k, v) :: rest else (k', v') :: dictInsert rest k v

mutual

/-- One JSON value (fueled recursive-descent parser). -/
def parseValue : Nat → List Char → Option (PyValue × List Char)
  | 0, _ => Option.none
  | fuel + 1, cs =>
    match skipWs cs with
    | 'n' :: 'u' :: 'l' :: 'l' :: rest => some (.none, rest)
    | 't' :: 'r' :: 'u' :: 'e' :: rest => some (.bool true, rest)
    | 'f' :: 'a' :: 'l' :: 's' :: 'e' :: rest => some (.bool false, rest)
    | '"' :: rest =>
      match parseStringBody [] rest with
      | some (s, rest') => some (.str s, rest')
      | Option.none => Option.none
    | '[' :: rest =>
      match skipWs rest with
      | ']' :: rest' => some (.list [], rest')
      | cs' => parseElems fuel cs' []
    | '\x7b' :: rest =>
      match skipWs rest with
      | '\x7d' :: rest' => some (.dict [], rest')
      | cs' => parseMembers fuel cs' []
    | cs' => parseNumber cs'

/-- Array elements after the opening bracket (non-empty case). -/
def parseElems : Nat → List Char → List PyValue → Option (PyValue × List Char)
  | 0, _, _ => Option.none
  | fuel + 1, cs, acc =>
    match parseValue fuel cs with
    | Option.none => Option.none
    | some (v, rest) =>
      match skipWs rest with
      | ',' :: rest' => parseElems fuel rest' (v :: acc)
      | ']' :: rest' => some (.list (v :: acc).reverse, rest')
      | _ => Option.none

/-- Object members after the opening brace (non-empty case). -/
def parseMembers : Nat → List Char → List (String × PyValue) →
    Option (PyValue × List Char)
  | 0, _, _ => Option.none
  | fuel + 1, cs, acc =>
    match skipWs cs with
    | '"' :: rest =>
      match parseStringBody [] rest with
      | Option.none => Option.none
      | some (k, rest1) =>
        match skipWs rest1 with
        | ':' :: rest2 =>
          match parseValue fuel rest2 with
          | Option.none => Option.none
          | some (v, rest3) =>
            match skipWs rest3 with
            | ',' :: rest4 => parseMembers fuel rest4 (dictInsert acc k v)
            | '\x7d' :: rest4 => some (.dict (dictInsert acc k v), rest4)
            | _ => Option.none
        | _ => Option.none
    | _ => Option.none

end

/-- `json.loads`: parse one JSON document, requiring only whitespace after
it; any failure is a `JSONDecodeError`, modelled as `Option.none`. -/
def json_loads (s : String) : Option PyValue :=
  let cs := s.toList
  match parseValue (2 * cs.length + 8) cs with
  | some (v, rest) => if (skipWs rest).isEmpty then some v else Option.none
  | Option.none => Option.none

/-! ### Python `int(str)` -/

/-- Digits with Python's single-underscore-between-digits rule. -/
def digitsUnderscore : List Char → Option Nat
  | [] => Option.none
  | c :: rest =>
    if c.isDigit then
      let rec go : List Char → Nat → Option Nat
        | [], acc => some acc
        | '_' :: d :: rest', acc =>
          if d.isDigit then go rest' (acc * 10 + (d.toNat - '0'.toNat))
          else Option.none
        | '_' :: [], _ => Option.none
        | d :: rest', acc =>
          if d.isDigit then go rest' (acc * 10 + (d.toNat - '0'.toNat))
          else Option.none
      go rest (c.toNat - '0'.toNat)
    else Option.none

/-- Python's `int(s)` on a string: strip surrounding whitespace, optional
sign, then digits (underscores allowed between digits); anything else
raises `ValueError`, modelled as `Option.none`. -/
def pyInt (s : String) : Option Int :=
  let cs := (skipWs s.toList).reverse
  let cs := (skipWs cs).reverse
  match cs with
  | '-' :: rest => (digitsUnderscore rest).map (fun n => -(Int.ofNat n))
  | '+' :: rest => (digitsUnderscore rest).map Int.ofNat
  | _ => (digitsUnderscore cs).map Int.ofNat

/-! ### src/config.py -/

/-- Result of one call to the remote collaborator's `config.get(key)`:
either it raises, or it returns a value (possibly Python `None`). -/
inductive RemoteResult where
  | raises : RemoteResult
  | val : PyValue → RemoteResult

/-- Behaviour of a constructed `KengerClient`: its per-key `config.get`. -/
def RemoteGet : Type := String → RemoteResult

/-- `CONFIG_SERVER_TOKEN = os.environ.get('CONFIG_SERVER_TOKEN', 'u2InTXnmFF0Um6Sd')` -/
def CONFIG_SERVER_TOKEN (env : Env) : String :=
  (env "CONFIG_SERVER_TOKEN").getD "u2InTXnmFF0Um6Sd"

/-- `SECRET_KEY = os.environ.get('SECRET_KEY', 'jrebel-license-server-secret')` -/
def SECRET_KEY (env : Env) : String :=
  (env "SECRET_KEY").getD "jrebel-license-server-secret"

/-- The module-level `kenger_client`: `KengerClient(...)` wrapped in
`try/except` — construction failure leaves it `None` (modelled `none`). -/
def kenger_client (ctor : Except Unit RemoteGet) : Option RemoteGet :=
  match ctor with
  | .ok c => some c
  | .error _ => none

/-- `get_config_value(key, default)`: try `kenger_client.config.get(key)`;
a raise is caught, a `None` result falls through; otherwise the remote
value is returned; else the default. -/
def get_config_value (client : Option RemoteGet) (key : String)
    (default : PyValue) : PyValue :=
  match client with
  | some g =>
    match g key with
    | .raises => default
    | .val v =>
      match v with
      | .none => default
      | _ => v
  | none => default

/-- The `all(env_config.values())` check of `get_mysql_config`: all five
`MYSQL_*` environment variables are set and non-empty. -/
def envMysqlComplete (env : Env) : Bool :=
  optStrTruthy (env "MYSQL_HOST") && optStrTruthy (env "MYSQL_PORT") &&
  optStrTruthy (env "MYSQL_DB") && optStrTruthy (env "MYSQL_USER") &&
  optStrTruthy (env "MYSQL_PASSWORD")

/-- `get_mysql_config()`: try remote key `mysql.config` (truthy string
values are JSON-parsed, parse failure is caught and falls through, non-string
truthy values are returned as-is); otherwise read the five `MYSQL_*`
environment variables; if all five are truthy, convert the port with
`int(...)` — which is outside any `try` and so can raise `ValueError`
(`Except.error`) — else return `None`. -/
def get_mysql_config (client : Option RemoteGet) (env : Env) :
    Except String PyValue :=
  let remote : Option PyValue :=
    match client with
    | some g =>
      match g "mysql.config" with
      | .raises => none
      | .val v =>
        if v.truthy then
          match v with
          | .str s =>
            match json_loads s with
            | some parsed => some parsed
            | none => none
          | _ => some v
        else none
    | none => none
  match remote with
  | some cfg => .ok cfg
  | none =>
    let host := env "MYSQL_HOST"
    let port := env "MYSQL_PORT"
    let db := env "MYSQL_DB"
    let user := env "MYSQL_USER"
    let password := env "MYSQL_PASSWORD"
    if envMysqlComplete env then
      match pyInt (port.getD "") with
      | some n =>
        .ok (.dict [("host", .str (host.getD "")), ("port", .int n),
          ("db", .str (db.getD "")), ("user", .str (user.getD "")),
          ("password", .str (password.getD ""))])
      | none => .error "ValueError: invalid literal for int()"
    else .ok .none

/-- `init_service_registry()`: `None` when the client was never constructed;
`None` when `KENGER_REGISTRY_HOST` or `KENGER_REGISTRY_PORT` is missing or
empty; otherwise `ServiceRegistry.from_env(kenger_client)` (an external
call, modelled by its outcome `fromEnv`) with any exception caught,
returning `None`. -/
def init_service_registry {R : Type} (client : Option RemoteGet) (env : Env)
    (fromEnv : Except Unit R) : Option R :=
  match client with
  | none => none
  | some _ =>
    let registry_host := env "KENGER_REGISTRY_HOST"
    let registry_port := env "KENGER_REGISTRY_PORT"
    if !optStrTruthy registry_host || !optStrTruthy registry_port then none
    else
      match fromEnv with
      | .ok r => some r
      | .error _ => none

/-- `get_api_tokens()`: look up `api_tokens` via `get_config_value` with
default `None`; a truthy string is JSON-parsed (a parsed list is returned,
a parse failure yields the string as a single token, any other parse result
falls through), a truthy list is returned as-is, everything else yields
`[CONFIG_SERVER_TOKEN]`. -/
def get_api_tokens (client : Option RemoteGet) (env : Env) : List PyValue :=
  let tokens_value := get_config_value client "api_tokens" .none
  if tokens_value.truthy then
    match tokens_value with
    | .str s =>
      match json_loads s with
      | some (.list tokens) => tokens
      | some _ => [.str (CONFIG_SERVER_TOKEN env)]
      | none => [.str s]
    | .list xs => xs
    | _ => [.str (CONFIG_SERVER_TOKEN env)]
  else [.str (CONFIG_SERVER_TOKEN env)]

/-! ### src/app.py -/

/-- `start_service_registry()` in src/app.py: calls `init_service_registry`
and, when non-`None`, the registry's `start()` (modelled by its outcome
`startFn`); the whole body is wrapped in `try/except`, so it never raises
and returns the resulting `_service_registry`. -/
def start_service_registry {R : Type} (client : Option RemoteGet) (env : Env)
    (fromEnv : Except Unit R) (startFn : R → Except Unit Unit) : Option R :=
  match init_service_registry client env fromEnv with
  | some r =>
    match startFn r with
    | .ok _ => some r
    | .error _ => some r
  | none => none

/-- Application state once the HTTP server is serving. -/
structure AppState (R : Type) where
  secretKey : String
  apiTokens : List PyValue
  mysqlConfig : PyValue
  serviceRegistry : Option R
  serving : Bool

/-- Process startup: the module body of src/config.py (client construction
with catch, `SECRET_KEY`, `API_TOKENS = get_api_tokens()`,
`MYSQL_CONFIG = get_mysql_config()`) followed by src/app.py's
`create_app()` and `start_service_registry()`; an uncaught exception in the
config module aborts the import and the server never serves. -/
def app_startup {R : Type} (ctor : Except Unit RemoteGet) (env : Env)
    (fromEnv : Except Unit R) (startFn : R → Except Unit Unit) :
    Except String (AppState R) :=
  let client := kenger_client ctor
  let tokens := get_api_tokens client env
  match get_mysql_config client env with
  | .error e => .error e
  | .ok cfg =>
    let reg := start_service_registry client env fromEnv startFn
    .ok ⟨SECRET_KEY env, tokens, cfg, reg, true⟩

/-! ### Predicates formalising the spec's vocabulary -/

/-- A MySQL record field counts as empty in the spec's sense: Python `None`
or the empty string. -/
def pyFieldEmpty : PyValue → Bool
  | .none => true
  | .str s => s.isEmpty
  | _ => false

/-- Lookup in a Python dict modelled as an assoc list. -/
def dictGet (kvs : List (String × PyValue)) (k : String) : Option PyValue :=
  match kvs with
  | [] => Option.none
  | (k', v) :: rest => if k' = k then some v else dictGet rest k

/-- Field `k` is present and non-empty in the record. -/
def mysqlFieldFull (kvs : List (String × PyValue)) (k : String) : Bool :=
  match dictGet kvs k with
  | some v => !pyFieldEmpty v
  | Option.none => false

/-- The spec's "fully-populated record": a dict whose five connection
fields are all present and non-empty. -/
def mysqlRecordFull : PyValue → Bool
  | .dict kvs =>
    mysqlFieldFull kvs "host" && mysqlFieldFull kvs "port" &&
    mysqlFieldFull kvs "db" && mysqlFieldFull kvs "user" &&
    mysqlFieldFull kvs "password"
  | _ => false

/-! ### Concrete fixtures for counterexamples and witnesses -/

/-- The empty environment: no variable set. -/
def envEmpty : Env := fun _ => Option.none

/-- All five `MYSQL_*` variables set and non-empty, numeric port. -/
def envMysqlGood : Env := fun k =>
  if k = "MYSQL_HOST" then some "h"
  else if k = "MYSQL_PORT" then some "3306"
  else if k = "MYSQL_DB" then some "d"
  else if k = "MYSQL_USER" then some "u"
  else if k = "MYSQL_PASSWORD" then some "p"
  else Option.none

/-- All five `MYSQL_*` variables set and non-empty, non-numeric port. -/
def envMysqlBadPort : Env := fun k =>
  if k = "MYSQL_HOST" then some "h"
  else if k = "MYSQL_PORT" then some "abc"
  else if k = "MYSQL_DB" then some "d"
  else if k = "MYSQL_USER" then some "u"
  else if k = "MYSQL_PASSWORD" then some "p"
  else Option.none

/-- Both registry variables set and non-empty, nothing else. -/
def envRegistryBoth : Env := fun k =>
  if k = "KENGER_REGISTRY_HOST" then some "1.2.3.4"
  else if k = "KENGER_REGISTRY_PORT" then some "8080"
  else Option.none

/-- A remote collaborator that answers every key with the same value. -/
def gConst (v : PyValue) : RemoteGet := fun _ => RemoteResult.val v

/-- A remote collaborator whose every lookup raises. -/
def gRaises : RemoteGet := fun _ => RemoteResult.raises

/-- The empty string is not valid JSON. -/
lemma json_loads_empty : json_loads "" = Option.none := rfl

/-- C4: `resolve(key, default)` (get_config_value) returns the remote value
whenever the remote collaborator returns non-null, regardless of the
default; and returns the supplied default whenever the remote collaborator
raises or returns null. -/
theorem C4_resolve_remote_or_default (g : RemoteGet) (key : String)
    (default : PyValue) :
    (∀ v, g key = RemoteResult.val v → v ≠ PyValue.none →
      get_config_value (some g) key default = v)
    ∧ (g key = RemoteResult.raises →
      get_config_value (some g) key default = default)
    ∧ (g key = RemoteResult.val PyValue.none →
      get_config_value (some g) key default = default) := by
  refine ⟨?_, ?_, ?_⟩
  · intro v hv hne
    unfold get_config_value
    dsimp only
    rw [hv]
    cases v with
    | none => exact absurd rfl hne
    | bool b => rfl
    | int n => rfl
    | float l => rfl
    | str s => rfl
    | list xs => rfl
    | dict kvs => rfl
  · intro h
    unfold get_config_value
    dsimp only
    rw [h]
  · intro h
    unfold get_config_value
    dsimp only
    rw [h]

/-- C4 witness: with a remote collaborator answering `"remote-val"`, the
resolver returns it and ignores the default. -/
theorem C4_witness :
    get_config_value (some (gConst (.str "remote-val"))) "any-key"
      (.str "the-default") = .str "remote-val" :=
  (C4_resolve_remote_or_default (gConst (.str "remote-val")) "any-key"
    (.str "the-default")).1 (.str "remote-val") rfl nofun

/-- C6 counterexample: the claim "every list value returned by the remote
collaborator for `api_tokens` (including the empty list) is used as-is" is
false — an empty list is falsy in Python, so `get_api_tokens` replaces it
with the default token list. -/
theorem C6_counterexample :
    ¬ (∀ (g : RemoteGet) (env : Env) (xs : List PyValue),
        g "api_tokens" = RemoteResult.val (.list xs) →
        get_api_tokens (some g) env = xs) := by
  intro h
  exact nomatch (h (gConst (.list [])) envEmpty [] rfl :
    [PyValue.str "u2InTXnmFF0Um6Sd"] = ([] : List PyValue))

/-- C6 (amended): a non-empty list from the remote collaborator is used
as-is; the empty list is falsy and falls back to `[CONFIG_SERVER_TOKEN]`. -/
theorem C6_list_used_as_is (g : RemoteGet) (env : Env) (xs : List PyValue)
    (h : g "api_tokens" = RemoteResult.val (.list xs)) :
    get_api_tokens (some g) env =
      if xs.isEmpty then [.str (CONFIG_SERVER_TOKEN env)] else xs := by
  unfold get_api_tokens get_config_value
  dsimp only
  rw [h]
  cases xs with
  | nil => rfl
  | cons a as => rfl

/-- C6 witness: a concrete non-empty remote list comes back unchanged. -/
theorem C6_witness :
    get_api_tokens (some (gConst (.list [.str "a"]))) envEmpty = [.str "a"] :=
  C6_list_used_as_is (gConst (.list [.str "a"])) envEmpty [.str "a"] rfl

/-- C10: a remote `api_tokens` string that parses as JSON to a non-list
yields the default `[CONFIG_SERVER_TOKEN]` — neither the parsed value nor
the literal string. -/
theorem C10_nonlist_json_default (g : RemoteGet) (env : Env) (s : String)
    (v : PyValue) (hg : g "api_tokens" = RemoteResult.val (.str s))
    (hparse : json_loads s = some v) (hnl : ∀ xs, v ≠ PyValue.list xs) :
    get_api_tokens (some g) env = [.str (CONFIG_SERVER_TOKEN env)] := by
  unfold get_api_tokens get_config_value
  dsimp only
  rw [hg]
  by_cases hs : s.isEmpty
  · rw [String.isEmpty_iff] at hs
    subst hs
    rw [json_loads_empty] at hparse
    exact nomatch hparse
  · simp only [PyValue.truthy, hs]
    rw [hparse]
    cases v with
    | list xs => exact absurd rfl (hnl xs)
    | none => rfl
    | bool b => rfl
    | int n => rfl
    | float l => rfl
    | str t => rfl
    | dict kvs => rfl

/-- C10 witness: remote value `"42"` parses to a JSON number, so the
default token list is returned. -/
theorem C10_witness :
    get_api_tokens (some (gConst (.str "42"))) envEmpty =
      [.str (CONFIG_SERVER_TOKEN envEmpty)] :=
  C10_nonlist_json_default (gConst (.str "42")) envEmpty "42" (.int 42)
    rfl rfl (fun _ => nofun)

/-- A truthy `optStrTruthy` means the underlying string is non-empty. -/
lemma optStrTruthy_getD (o : Option String) (h : optStrTruthy o = true) :
    (o.getD "").isEmpty = false := by
  cases o with
  | none => exact nomatch h
  | some s => simpa [optStrTruthy] using h

/-- C8: a remote `mysql.config` string value that fails to parse as JSON is
treated as not found — `get_mysql_config` behaves exactly as if the remote
source were absent and falls through to the environment-variable path. -/
theorem C8_bad_json_falls_through (g : RemoteGet) (env : Env) (s : String)
    (hg : g "mysql.config" = RemoteResult.val (.str s))
    (hjson : json_loads s = Option.none) :
    get_mysql_config (some g) env = get_mysql_config Option.none env := by
  unfold get_mysql_config
  dsimp only
  rw [hg]
  by_cases hs : s.isEmpty
  · simp [PyValue.truthy, hs]
  · simp [PyValue.truthy, hs, hjson]

/-- C8 witness: remote value `"not json"` falls through to the env path. -/
theorem C8_witness :
    get_mysql_config (some (gConst (.str "not json"))) envEmpty =
      get_mysql_config Option.none envEmpty :=
  C8_bad_json_falls_through (gConst (.str "not json")) envEmpty "not json"
    rfl rfl

/-- C2 counterexample: the claim that `get_mysql_config` always returns a
fully-populated record or absent is false — a record coming from the remote
source is returned without any validation, e.g. the JSON string
`{"host": ""}` yields a record with an empty host and four missing fields. -/
theorem C2_counterexample :
    ¬ (∀ (client : Option RemoteGet) (env : Env) (r : PyValue),
        get_mysql_config client env = Except.ok r →
        (r = PyValue.none ∨ mysqlRecordFull r = true)) := by
  intro h
  rcases h (some (gConst (.str "\x7b\"host\":\"\"\x7d"))) envEmpty
      (.dict [("host", .str "")]) rfl with h1 | h2
  · exact nomatch h1
  · exact nomatch h2

/-- C2 (amended): when resolution falls to the environment path (remote
client absent), every record `get_mysql_config` returns is fully populated
or absent; records from the remote source are returned as-is, unvalidated. -/
theorem C2_env_full_or_absent (env : Env) (r : PyValue)
    (h : get_mysql_config Option.none env = Except.ok r) :
    r = PyValue.none ∨ mysqlRecordFull r = true := by
  unfold get_mysql_config at h
  dsimp only at h
  by_cases hc : envMysqlComplete env = true
  · rw [if_pos hc] at h
    cases hp : pyInt ((env "MYSQL_PORT").getD "") with
    | none => rw [hp] at h; exact nomatch h
    | some n =>
      rw [hp] at h
      injection h with h'
      subst h'
      right
      simp only [envMysqlComplete, Bool.and_eq_true] at hc
      obtain ⟨⟨⟨⟨h1, h2⟩, h3⟩, h4⟩, h5⟩ := hc
      simp [mysqlRecordFull, mysqlFieldFull, dictGet, pyFieldEmpty,
        optStrTruthy_getD _ h1, optStrTruthy_getD _ h3,
        optStrTruthy_getD _ h4, optStrTruthy_getD _ h5]
  · rw [if_neg hc] at h
    injection h with h'
    exact Or.inl h'.symm

/-- C2 witness: a complete environment yields a fully-populated record. -/
theorem C2_witness :
    PyValue.dict [("host", .str "h"), ("port", .int 3306), ("db", .str "d"),
        ("user", .str "u"), ("password", .str "p")] = PyValue.none ∨
      mysqlRecordFull (PyValue.dict [("host", .str "h"), ("port", .int 3306),
        ("db", .str "d"), ("user", .str "u"), ("password", .str "p")]) =
        true :=
  C2_env_full_or_absent envMysqlGood _ rfl

/-- C7 counterexample: the claim "non-absent iff all five `MYSQL_*`
variables are set and non-empty" fails — with all five set but
`MYSQL_PORT` non-numeric, `int()` raises `ValueError` instead of producing
a record. -/
theorem C7_counterexample :
    ¬ (∀ env : Env,
        (∃ r, get_mysql_config Option.none env = Except.ok r ∧
            r ≠ PyValue.none) ↔
          envMysqlComplete env = true) := by
  intro h
  rcases (h envMysqlBadPort).mpr rfl with ⟨r, hr, _⟩
  exact nomatch
    (hr : Except.error "ValueError: invalid literal for int()" = Except.ok r)

/-- C7 (amended): on the environment path, `get_mysql_config` returns a
non-absent record iff all five `MYSQL_*` variables are set and non-empty
and `MYSQL_PORT` parses as a Python int; whenever any variable is missing
or empty the whole record resolves to absent (`None`). -/
theorem C7_env_complete_iff (env : Env) :
    ((∃ r, get_mysql_config Option.none env = Except.ok r ∧
        r ≠ PyValue.none) ↔
      (envMysqlComplete env = true ∧
        (pyInt ((env "MYSQL_PORT").getD "")).isSome = true))
    ∧ (envMysqlComplete env = false →
        get_mysql_config Option.none env = Except.ok PyValue.none) := by
  constructor
  · constructor
    · rintro ⟨r, hr, hne⟩
      unfold get_mysql_config at hr
      dsimp only at hr
      by_cases hc : envMysqlComplete env = true
      · rw [if_pos hc] at hr
        refine ⟨hc, ?_⟩
        cases hp : pyInt ((env "MYSQL_PORT").getD "") with
        | none => rw [hp] at hr; exact nomatch hr
        | some n => rfl
      · rw [if_neg hc] at hr
        injection hr with hr'
        exact absurd hr'.symm hne
    · rintro ⟨hc, hp⟩
      rw [Option.isSome_iff_exists] at hp
      obtain ⟨n, hn⟩ := hp
      refine ⟨.dict [("host", .str ((env "MYSQL_HOST").getD "")),
        ("port", .int n), ("db", .str ((env "MYSQL_DB").getD "")),
        ("user", .str ((env "MYSQL_USER").getD "")),
        ("password", .str ((env "MYSQL_PASSWORD").getD ""))], ?_, nofun⟩
      unfold get_mysql_config
      dsimp only
      rw [if_pos hc, hn]
  · intro hc
    unfold get_mysql_config
    dsimp only
    rw [if_neg (by simp [hc])]

/-- C7 witness: with no `MYSQL_*` variable set, the record is absent. -/
theorem C7_witness :
    get_mysql_config Option.none envEmpty = Except.ok PyValue.none :=
  (C7_env_complete_iff envEmpty).2 rfl

/-- C5: API token resolution — a remote JSON list string yields the parsed
list, a non-JSON string yields itself as a single token, and an absent
remote value (lookup raising, returning null, or no client) yields
`[CONFIG_SERVER_TOKEN]`. -/
theorem C5_api_token_resolution (env : Env) (g : RemoteGet) :
    (g "api_tokens" = RemoteResult.val (.str "[\"t1\",\"t2\"]") →
      get_api_tokens (some g) env = [.str "t1", .str "t2"])
    ∧ (g "api_tokens" = RemoteResult.val (.str "plain-token") →
      get_api_tokens (some g) env = [.str "plain-token"])
    ∧ ((g "api_tokens" = RemoteResult.raises ∨
        g "api_tokens" = RemoteResult.val PyValue.none) →
      get_api_tokens (some g) env = [.str (CONFIG_SERVER_TOKEN env)])
    ∧ get_api_tokens Option.none env = [.str (CONFIG_SERVER_TOKEN env)] := by
  refine ⟨?_, ?_, ?_, rfl⟩
  · intro h
    unfold get_api_tokens get_config_value
    dsimp only
    rw [h]
    rfl
  · intro h
    unfold get_api_tokens get_config_value
    dsimp only
    rw [h]
    rfl
  · rintro (h | h) <;>
      (unfold get_api_tokens get_config_value; dsimp only; rw [h]; rfl)

/-- C5 witness: the three cases at concrete remote collaborators. -/
theorem C5_witness :
    get_api_tokens (some (gConst (.str "[\"t1\",\"t2\"]"))) envEmpty =
        [.str "t1", .str "t2"]
    ∧ get_api_tokens (some (gConst (.str "plain-token"))) envEmpty =
        [.str "plain-token"]
    ∧ get_api_tokens (some gRaises) envEmpty =
        [.str (CONFIG_SERVER_TOKEN envEmpty)] :=
  ⟨(C5_api_token_resolution envEmpty (gConst (.str "[\"t1\",\"t2\"]"))).1 rfl,
   (C5_api_token_resolution envEmpty (gConst (.str "plain-token"))).2.1 rfl,
   (C5_api_token_resolution envEmpty gRaises).2.2.1 (Or.inl rfl)⟩

/-- C3 counterexample: "constructed iff both registry variables are set and
non-empty" is false — with both variables set but the remote client never
constructed, `init_service_registry` still returns `None`. -/
theorem C3_counterexample :
    ¬ (∀ (client : Option RemoteGet) (env : Env) (fromEnv : Except Unit Nat),
        ((init_service_registry client env fromEnv).isSome = true ↔
          (optStrTruthy (env "KENGER_REGISTRY_HOST") = true ∧
            optStrTruthy (env "KENGER_REGISTRY_PORT") = true))) := by
  intro h
  exact nomatch ((h Option.none envRegistryBoth (Except.ok 0)).mpr ⟨rfl, rfl⟩ :
    false = true)

/-- C3 (amended): the registry descriptor is non-null iff the remote client
was constructed, both `KENGER_REGISTRY_HOST` and `KENGER_REGISTRY_PORT` are
set and non-empty, and `ServiceRegistry.from_env` does not raise; whenever
either variable is missing or empty the result is null and no heartbeat
start occurs. -/
theorem C3_registry_iff {R : Type} (client : Option RemoteGet) (env : Env)
    (fromEnv : Except Unit R) (startFn : R → Except Unit Unit) :
    ((init_service_registry client env fromEnv).isSome = true ↔
      (client.isSome = true ∧
        optStrTruthy (env "KENGER_REGISTRY_HOST") = true ∧
        optStrTruthy (env "KENGER_REGISTRY_PORT") = true ∧
        fromEnv.isOk = true))
    ∧ (¬(optStrTruthy (env "KENGER_REGISTRY_HOST") = true ∧
          optStrTruthy (env "KENGER_REGISTRY_PORT") = true) →
        init_service_registry client env fromEnv = Option.none ∧
        start_service_registry client env fromEnv startFn = Option.none) := by
  unfold start_service_registry init_service_registry
  cases client <;> cases fromEnv <;>
    cases hh : optStrTruthy (env "KENGER_REGISTRY_HOST") <;>
    cases hp : optStrTruthy (env "KENGER_REGISTRY_PORT") <;>
    simp_all [Except.isOk, Except.toBool]

/-- C3 witness: a constructed client with both variables set and a
successful `from_env` yields a descriptor. -/
theorem C3_witness :
    (init_service_registry (R := Nat) (some gRaises) envRegistryBoth
      (Except.ok 0)).isSome = true :=
  (C3_registry_iff (some gRaises) envRegistryBoth (Except.ok 0)
    (fun _ => Except.ok ())).1.mpr ⟨rfl, rfl, rfl, rfl⟩

/-- C9: a raise in `ServiceRegistry.from_env` is caught and
`init_service_registry` returns null; a raise in the descriptor's `start()`
is caught by `start_service_registry` (which returns the same registry
state); and whether startup reaches the serving state never depends on the
registry behaviour. -/
theorem C9_registry_failure_nonfatal {R : Type} (client : Option RemoteGet)
    (env : Env) (fromEnv : Except Unit R) (startFn : R → Except Unit Unit) :
    (fromEnv = Except.error () →
      init_service_registry client env fromEnv = Option.none)
    ∧ start_service_registry client env fromEnv startFn =
        init_service_registry client env fromEnv
    ∧ ∀ (ctor : Except Unit RemoteGet) (fromEnv' : Except Unit R)
        (startFn' : R → Except Unit Unit),
        (app_startup ctor env fromEnv startFn).isOk =
          (app_startup ctor env fromEnv' startFn').isOk := by
  refine ⟨?_, ?_, ?_⟩
  · intro h
    subst h
    unfold init_service_registry
    cases client with
    | none => rfl
    | some g =>
      dsimp only
      cases hcond : (!optStrTruthy (env "KENGER_REGISTRY_HOST") ||
          !optStrTruthy (env "KENGER_REGISTRY_PORT")) <;> simp [hcond]
  · unfold start_service_registry
    cases hinit : init_service_registry client env fromEnv with
    | none => rfl
    | some r =>
      dsimp only
      cases startFn r <;> rfl
  · intro ctor fromEnv' startFn'
    unfold app_startup
    dsimp only
    cases get_mysql_config (kenger_client ctor) env <;> rfl

/-- C9 witness: both registry variables set, `from_env` raising — the
descriptor is null and nothing propagates. -/
theorem C9_witness :
    init_service_registry (R := Nat) (some gRaises) envRegistryBoth
      (Except.error ()) = Option.none :=
  (C9_registry_failure_nonfatal (some gRaises) envRegistryBoth
    (Except.error ()) (fun _ => Except.error ())).1 rfl

/-- C1 counterexample: startup can raise — with the remote client failing to
construct and all five `MYSQL_*` variables set but `MYSQL_PORT` non-numeric
(`"abc"`), the module-level `int()` call raises `ValueError` and the HTTP
server never reaches its serving state. -/
theorem C1_counterexample :
    (app_startup (R := Nat) (Except.error ()) envMysqlBadPort (Except.ok 0)
      (fun _ => Except.ok ())).isOk = false := rfl

/-- `get_mysql_config` cannot raise unless the environment is complete with
a non-numeric `MYSQL_PORT`. -/
lemma get_mysql_config_isOk (client : Option RemoteGet) (env : Env)
    (h : envMysqlComplete env = true →
      (pyInt ((env "MYSQL_PORT").getD "")).isSome = true) :
    (get_mysql_config client env).isOk = true := by
  unfold get_mysql_config
  dsimp only
  split
  · rfl
  · by_cases hc : envMysqlComplete env = true
    · rw [if_pos hc]
      cases hp : pyInt ((env "MYSQL_PORT").getD "") with
      | some n => rfl
      | none =>
        have hs := h hc
        rw [hp] at hs
        exact nomatch hs
    · rw [if_neg hc]
      rfl

/-- C1 (amended): startup completes without exception for every remote
collaborator behaviour, every registry behaviour, and every environment in
which `MYSQL_PORT` parses as an int whenever all five `MYSQL_*` variables
are set and non-empty; the sole exception path is the unguarded `int()` on
a complete environment with a non-numeric `MYSQL_PORT`. -/
theorem C1_startup_no_raise {R : Type} (ctor : Except Unit RemoteGet)
    (env : Env) (fromEnv : Except Unit R) (startFn : R → Except Unit Unit)
    (h : envMysqlComplete env = true →
      (pyInt ((env "MYSQL_PORT").getD "")).isSome = true) :
    (app_startup ctor env fromEnv startFn).isOk = true := by
  unfold app_startup
  dsimp only
  have hmc := get_mysql_config_isOk (kenger_client ctor) env h
  cases hc : get_mysql_config (kenger_client ctor) env with
  | error e =>
    rw [hc] at hmc
    exact nomatch hmc
  | ok cfg => rfl

/-- C1 witness: client construction, per-key lookups, `from_env` and
`start()` all failing, empty environment — the server still serves. -/
theorem C1_witness :
    (app_startup (R := Nat) (Except.error ()) envEmpty (Except.error ())
      (fun _ => Except.error ())).isOk = true :=
  C1_startup_no_raise (Except.error ()) envEmpty (Except.error ())
    (fun _ => Except.error ()) (fun hc => nomatch hc)
